import Mathlib

/-!
Verification development for `src/task_timer.py`: a to-do list with a fixed
five-minute reminder countdown, JSON persistence and identity-based task
removal.  The Python code is shallowly embedded below: the mutable fields of
`MainWindow` that the verified behaviour touches (`tasks`, `seconds_left`,
the `QTimer` active flag, the save file) become an explicit `AppState`
record, the mutating slots become state-to-state functions, and the one
side channel (the fired notification) becomes an explicit return value.
Python object identity (the `is` operator) is modelled by a numeric `id`
field that every constructed `Task` receives freshly; float timestamps are
modelled by rationals.
-/

namespace TaskTimer

/-- The constant `REMINDER_SECONDS = 5 * 60` from the source. -/
def REMINDER_SECONDS : Int := 5 * 60

/-- A Python `Task` object (the `@dataclass` at the top of the file).
The `id` field models Python object identity: every `Task(...)` call yields
a fresh object, and `is` compares these identities.  `created_at` models the
float timestamp; crucially, the dataclass default `created_at: float =
time.time()` is evaluated ONCE, when the module is loaded, so the default is
a fixed value (passed around below as `mlt`, the module-load time). -/
structure Task where
  id : Nat
  title : String
  done : Bool
  created_at : Rat
deriving DecidableEq, Repr

/-- A JSON value, for the persistence file `tasks.json`. -/
inductive Json where
  | str (s : String)
  | bool (b : Bool)
  | num (q : Rat)
  | null
  | arr (elems : List Json)
  | obj (fields : List (String × Json))

/-- The persistence file as `load_tasks` observes it: absent
(`os.path.exists` is false), present but unparseable (`json.load` raises),
or parsed to a JSON value. -/
inductive FileContent where
  | missing
  | malformed
  | json (j : Json)

/-- The mutable state of `MainWindow` relevant to the timer and task logic:
the task list, the countdown, whether the `QTimer` is active, the counter
used to hand out fresh object identities, and the save file. -/
structure AppState where
  tasks : List Task
  seconds_left : Int
  tickActive : Bool
  next_id : Nat
  file : FileContent

/-- `sum(1 for t in self.tasks if not t.done)` from `update_counter`:
the number of pending (not-done) tasks. -/
def pending_count (tasks : List Task) : Nat :=
  tasks.countP (fun t => !t.done)

/-- `any(not t.done for t in self.tasks)` as used in `reset_or_start`
and `on_tick`. -/
def has_pending (tasks : List Task) : Bool :=
  tasks.any (fun t => !t.done)

/-- Python `str.strip()` as applied to the input text in `add_task`:
drop leading and trailing whitespace characters. -/
def pyStrip (s : String) : String :=
  ⟨((s.data.dropWhile Char.isWhitespace).reverse.dropWhile Char.isWhitespace).reverse⟩

/-- `dataclasses.asdict` of a `Task` followed by `json.dump`: a JSON object
with the dataclass fields in declaration order.  Object identity is not a
field of the dataclass, so it is not serialized. -/
def encodeTask (t : Task) : Json :=
  .obj [("title", .str t.title), ("done", .bool t.done),
        ("created_at", .num t.created_at)]

/-- `[asdict(t) for t in self.tasks]`: the JSON array that `save_tasks`
writes. -/
def encodeTasks (ts : List Task) : Json := .arr (ts.map encodeTask)

/-- `MainWindow.save_tasks`: serialize the task list into the save file.
A write failure is silently absorbed by the `except` clause; the model keeps
the successful path. -/
def save_tasks (s : AppState) : AppState :=
  { s with file := .json (encodeTasks s.tasks) }

/-- Lookup of a key in a JSON object (Python dict access for the `**t`
expansion). -/
def lookupKey (k : String) : List (String × Json) → Option Json
  | [] => none
  | (k', v) :: rest => if k' = k then some v else lookupKey k rest

/-- `Task(**t)` for one decoded JSON element `t`.  Construction raises
`TypeError` (hence `none`) when `t` is not an object, when it carries a key
that is not a dataclass field, or when `title` is absent; `done` and
`created_at` fall back to the dataclass defaults (`False` and the
module-load timestamp `mlt`).  Field values follow the dataclass
annotations (`title` a string, `done` a boolean, `created_at` a number).
The freshly constructed object receives identity `i`. -/
def decodeTask (mlt : Rat) (i : Nat) : Json → Option Task
  | .obj fields =>
    if fields.all
        (fun kv => kv.1 == "title" || kv.1 == "done" || kv.1 == "created_at")
    then
      match lookupKey "title" fields, lookupKey "done" fields,
            lookupKey "created_at" fields with
      | some (.str title), some (.bool d), some (.num c) => some ⟨i, title, d, c⟩
      | some (.str title), some (.bool d), none => some ⟨i, title, d, mlt⟩
      | some (.str title), none, some (.num c) => some ⟨i, title, false, c⟩
      | some (.str title), none, none => some ⟨i, title, false, mlt⟩
      | _, _, _ => none
    else none
  | _ => none

/-- `[Task(**t) for t in raw]` over the elements of a JSON array, handing
out consecutive fresh identities starting at `i`; `none` when any element
fails to construct. -/
def decodeTasksFrom (mlt : Rat) : Nat → List Json → Option (List Task)
  | _, [] => some []
  | i, j :: rest =>
    match decodeTask mlt i j, decodeTasksFrom mlt (i + 1) rest with
    | some t, some ts => some (t :: ts)
    | _, _ => none

/-- Decoding of the whole persisted value.  A non-array value makes the
comprehension `[Task(**t) for t in raw]` raise (numbers are not iterable;
iterating a string or an object yields strings, and `Task(**string)` is a
`TypeError`), except for the empty object, whose iteration yields nothing
and produces the empty list, the same result the `none` branch yields via
`load_tasks`. -/
def decodeTasks (mlt : Rat) : Json → Option (List Task)
  | .arr elems => decodeTasksFrom mlt 0 elems
  | _ => none

/-- `MainWindow.load_tasks`: `self.tasks` is `[]` beforehand (set in
`__init__` before the call), and the assignment happens only after the whole
comprehension succeeds, so any exception from parsing or record construction
leaves the empty list.  The function is total: no error escapes the
`try/except`. -/
def load_tasks (mlt : Rat) : FileContent → List Task
  | .missing => []
  | .malformed => []
  | .json j => (decodeTasks mlt j).getD []

/-- `MainWindow.reset_or_start`: with pending tasks, (re)start the countdown
when forced (`start_if_any`) or when the timer is not already active;
without pending tasks, stop the timer.  Either way the countdown is pinned
at `REMINDER_SECONDS` whenever it is touched. -/
def reset_or_start (start_if_any : Bool) (s : AppState) : AppState :=
  if has_pending s.tasks then
    if start_if_any || !s.tickActive then
      { s with seconds_left := REMINDER_SECONDS, tickActive := true }
    else s
  else
    { s with tickActive := false, seconds_left := REMINDER_SECONDS }

/-- `MainWindow.add_task`.  `now` is the wall-clock time at the moment of
the call; the source never reads the clock here, because the `created_at`
default was captured at module-load time (`mlt`).  A title that strips to
the empty string returns early, before any side effect. -/
def add_task (mlt : Rat) (_now : Rat) (input : String) (s : AppState) : AppState :=
  let text := pyStrip input
  if text = "" then s
  else
    let t : Task := ⟨s.next_id, text, false, mlt⟩
    let s1 := { s with tasks := s.tasks ++ [t], next_id := s.next_id + 1 }
    reset_or_start true (save_tasks s1)

/-- `MainWindow.toggle_task`: flip `done` in place on the referenced object
(the `TaskItem` widget holds a reference to the `Task`; the model identifies
it by object id), then save and re-evaluate the timer. -/
def toggle_task (ref : Nat) (s : AppState) : AppState :=
  let ts := s.tasks.map (fun t => if t.id = ref then { t with done := !t.done } else t)
  reset_or_start false (save_tasks { s with tasks := ts })

/-- `MainWindow.remove_task`: `self.tasks = [t for t in self.tasks if t is
not item_widget.task]` — an identity-based filter — then save and
re-evaluate the timer. -/
def remove_task (ref : Nat) (s : AppState) : AppState :=
  let s1 := { s with tasks := s.tasks.filter (fun t => t.id != ref) }
  reset_or_start false (save_tasks s1)

/-- `MainWindow.clear_done`: drop every done task, keeping the rest in
order, then save and re-evaluate the timer. -/
def clear_done (s : AppState) : AppState :=
  let s1 := { s with tasks := s.tasks.filter (fun t => !t.done) }
  reset_or_start false (save_tasks s1)

/-- `[t.title for t in self.tasks if not t.done]`: the ordered titles of
the pending tasks, as computed at the top of `fire_reminder`. -/
def pendingTitles (tasks : List Task) : List String :=
  (tasks.filter (fun t => !t.done)).map Task.title

/-- `MainWindow.fire_reminder`: gather the titles of the pending tasks at
fire time; return early (no notification) when none are pending; otherwise
show a notification whose body is the fixed text, with an `…and N more`
line appended when more than 5 tasks are pending.  The result pairs the
computed pending-title list with the body actually displayed. -/
def fire_reminder (tasks : List Task) : Option (List String × String) :=
  let pending := pendingTitles tasks
  if pending.isEmpty then none
  else
    let body := "You have pending tasks! Stay focused"
    let body :=
      if pending.length > 5 then
        body ++ "\n…and " ++ toString (pending.length - 5) ++ " more"
      else body
    some (pending, body)

/-- Whether the character list `needle` starts the character list given
second. -/
def startsWithList : List Char → List Char → Bool
  | [], _ => true
  | _ :: _, [] => false
  | a :: as, b :: bs => a == b && startsWithList as bs

/-- Whether `needle` occurs as a contiguous run inside `hay`. -/
def containsSub (needle : List Char) : List Char → Bool
  | [] => needle.isEmpty
  | c :: rest => startsWithList needle (c :: rest) || containsSub needle rest

/-- Whether the string `needle` occurs as a substring of `hay`: the sense in
which a displayed message can be said to show a task title. -/
def mentions (hay needle : String) : Bool :=
  containsSub needle.data hay.data

/-- `MainWindow.on_tick`: the 1-second callback.  The pending check comes
first: with nothing pending the timer stops and the countdown resets,
without decrementing and without firing.  Otherwise decrement; at zero or
below, fire and reset.  The second component is the fire event (pending
titles and displayed body) when this tick fired. -/
def on_tick (s : AppState) : AppState × Option (List String × String) :=
  if !has_pending s.tasks then
    ({ s with tickActive := false, seconds_left := REMINDER_SECONDS }, none)
  else
    let sl := s.seconds_left - 1
    if sl ≤ 0 then
      ({ s with seconds_left := REMINDER_SECONDS }, fire_reminder s.tasks)
    else
      ({ s with seconds_left := sl }, none)

/-- Run `n` consecutive ticks, counting how many of them fired. -/
def run_ticks : Nat → AppState → AppState × Nat
  | 0, s => (s, 0)
  | n + 1, s =>
    let p := on_tick s
    let q := run_ticks n p.1
    (q.1, (if p.2.isSome then 1 else 0) + q.2)

/-- The reminder-state invariant of the spec: the timer is running exactly
when at least one task is pending. -/
def timerInvariant (s : AppState) : Prop :=
  s.tickActive = true ↔ 0 < pending_count s.tasks

/-- A concrete state used by the witness theorems below. -/
def demoState : AppState :=
  ⟨[], REMINDER_SECONDS, false, 0, .missing⟩

lemma has_pending_iff (ts : List Task) :
    has_pending ts = true ↔ 0 < pending_count ts := by
  simp [has_pending, pending_count, List.any_eq_true, List.countP_pos_iff]

lemma reset_or_start_tasks (b : Bool) (s : AppState) :
    (reset_or_start b s).tasks = s.tasks := by
  unfold reset_or_start
  split
  · split <;> rfl
  · rfl

lemma timerInvariant_reset_or_start (b : Bool) (s : AppState) :
    timerInvariant (reset_or_start b s) := by
  rw [timerInvariant, ← has_pending_iff, reset_or_start]
  by_cases hp : has_pending s.tasks = true
  · by_cases hb : (b || !s.tickActive) = true
    · simp [hp, hb]
    · simp only [Bool.or_eq_true, Bool.not_eq_true', not_or] at hb
      simp [hp, hb.1, hb.2]
  · have hp' : has_pending s.tasks = false := by simpa using hp
    simp [hp']

/-- Claim C1: after every mutating operation (`add_task`, `toggle_task`,
`remove_task`, `clear_done`) the reminder timer is active if and only if at
least one task is pending: a mutation that leaves zero pending tasks stops
the timer and one that leaves at least one pending task leaves it running. -/
theorem mutations_preserve_timer_invariant
    (s : AppState) (hs : timerInvariant s)
    (mlt now : Rat) (input : String) (ref : Nat) :
    timerInvariant (add_task mlt now input s) ∧
    timerInvariant (toggle_task ref s) ∧
    timerInvariant (remove_task ref s) ∧
    timerInvariant (clear_done s) := by
  refine ⟨?_, ?_, ?_, ?_⟩
  · simp only [add_task]
    split
    · exact hs
    · exact timerInvariant_reset_or_start _ _
  · exact timerInvariant_reset_or_start _ _
  · exact timerInvariant_reset_or_start _ _
  · exact timerInvariant_reset_or_start _ _

/-- Witness for claim C1 at a concrete state. -/
theorem mutations_preserve_timer_invariant_witness :
    timerInvariant (add_task 0 0 "a" demoState) ∧
    timerInvariant (toggle_task 0 demoState) ∧
    timerInvariant (remove_task 0 demoState) ∧
    timerInvariant (clear_done demoState) :=
  mutations_preserve_timer_invariant demoState (by unfold timerInvariant; decide) 0 0 "a" 0

/-- A concrete state with one pending task and a running timer whose
countdown is below `REMINDER_SECONDS`, used by witness theorems. -/
def demoRunning : AppState :=
  ⟨[⟨0, "a", false, 0⟩], 7, true, 1, .missing⟩

lemma reset_or_start_force (s : AppState) (hp : has_pending s.tasks = true) :
    reset_or_start true s =
      { s with seconds_left := REMINDER_SECONDS, tickActive := true } := by
  unfold reset_or_start
  simp [hp]

lemma reset_or_start_keep (s : AppState) (hp : has_pending s.tasks = true)
    (ht : s.tickActive = true) : reset_or_start false s = s := by
  unfold reset_or_start
  simp [hp, ht]

lemma has_pending_append_new (ts : List Task) (i : Nat) (x : String) (c : Rat) :
    has_pending (ts ++ [⟨i, x, false, c⟩]) = true := by
  simp [has_pending]

/-- Claim C2: a successful add (non-blank title) resets `seconds_left` to
`REMINDER_SECONDS` and leaves the timer running, from every state — even a
running timer with a lower countdown; `toggle_task` and `remove_task` do not
touch the countdown when the timer was running and stays running. -/
theorem add_forces_reset
    (s : AppState) (mlt now : Rat) (input : String) (ref : Nat)
    (hin : pyStrip input ≠ "") :
    ((add_task mlt now input s).seconds_left = REMINDER_SECONDS ∧
      (add_task mlt now input s).tickActive = true) ∧
    (s.tickActive = true → has_pending (toggle_task ref s).tasks = true →
      (toggle_task ref s).seconds_left = s.seconds_left ∧
      (toggle_task ref s).tickActive = true) ∧
    (s.tickActive = true → has_pending (remove_task ref s).tasks = true →
      (remove_task ref s).seconds_left = s.seconds_left ∧
      (remove_task ref s).tickActive = true) := by
  refine ⟨?_, ?_, ?_⟩
  · simp only [add_task, if_neg hin]
    rw [reset_or_start_force _ (has_pending_append_new s.tasks s.next_id _ mlt)]
    exact ⟨rfl, rfl⟩
  · intro ht hp
    simp only [toggle_task] at hp ⊢
    rw [reset_or_start_tasks] at hp
    rw [reset_or_start_keep _ hp ht]
    exact ⟨rfl, ht⟩
  · intro ht hp
    simp only [remove_task] at hp ⊢
    rw [reset_or_start_tasks] at hp
    rw [reset_or_start_keep _ hp ht]
    exact ⟨rfl, ht⟩

/-- Witness for claim C2: a running timer at 7 seconds, one pending task. -/
theorem add_forces_reset_witness :
    pyStrip " x " ≠ "" ∧
    (((add_task 0 0 " x " demoRunning).seconds_left = REMINDER_SECONDS ∧
       (add_task 0 0 " x " demoRunning).tickActive = true) ∧
     (demoRunning.tickActive = true →
       has_pending (toggle_task 1 demoRunning).tasks = true →
       (toggle_task 1 demoRunning).seconds_left = demoRunning.seconds_left ∧
       (toggle_task 1 demoRunning).tickActive = true) ∧
     (demoRunning.tickActive = true →
       has_pending (remove_task 1 demoRunning).tasks = true →
       (remove_task 1 demoRunning).seconds_left = demoRunning.seconds_left ∧
       (remove_task 1 demoRunning).tickActive = true)) :=
  ⟨by decide, add_forces_reset demoRunning 0 0 " x " 1 (by decide)⟩

/-- A concrete state with one pending task and the countdown about to
fire on the next tick. -/
def demoFire : AppState :=
  ⟨[⟨0, "a", false, 0⟩], 1, true, 1, .missing⟩

lemma pendingTitles_ne_nil (ts : List Task) (hp : has_pending ts = true) :
    pendingTitles ts ≠ [] := by
  simp only [has_pending, List.any_eq_true] at hp
  obtain ⟨t, ht, hd⟩ := hp
  simp only [pendingTitles, ne_eq, List.map_eq_nil_iff, List.filter_eq_nil_iff]
  exact fun h => h t ht hd

/-- Claim C3 counterexample: a state whose countdown fires on the next tick
with the single pending title `zz` (so at most 5 titles are pending); the
fire payload is `["zz"]`, yet the displayed message does not contain the
title `zz` anywhere, contradicting `the displayed message shows all of
those titles`. -/
theorem fire_message_shows_no_titles :
    (on_tick ⟨[⟨0, "zz", false, 0⟩], 1, true, 1, .missing⟩).2.map
        (fun e => (e.1, mentions e.2 "zz")) = some (["zz"], false) := by
  decide

/-- Claim C3 (amended): a tick that fires emits the ordered list of pending
titles as its payload, but the displayed message is the fixed text `You
have pending tasks! Stay focused` and, when more than 5 tasks are pending,
an appended `…and N more` line with N the pending count minus 5; the titles
themselves are not part of the displayed message. -/
theorem fire_payload_and_message (s : AppState)
    (hp : has_pending s.tasks = true) (hz : s.seconds_left ≤ 1) :
    (on_tick s).2 = some (pendingTitles s.tasks,
      if (pendingTitles s.tasks).length > 5 then
        "You have pending tasks! Stay focused" ++ "\n…and " ++
          toString ((pendingTitles s.tasks).length - 5) ++ " more"
      else "You have pending tasks! Stay focused") := by
  have hie : (pendingTitles s.tasks).isEmpty = false := by
    cases h : (pendingTitles s.tasks).isEmpty
    · rfl
    · exact absurd (List.isEmpty_iff.mp h) (pendingTitles_ne_nil s.tasks hp)
  simp only [on_tick, hp, Bool.not_true, Bool.false_eq_true, if_false,
    if_pos (show s.seconds_left - 1 ≤ 0 by omega), fire_reminder, hie]

/-- Witness for claim C3 (amended) at a concrete firing state. -/
theorem fire_payload_and_message_witness :
    has_pending demoFire.tasks = true ∧ demoFire.seconds_left ≤ 1 ∧
    (on_tick demoFire).2 = some (pendingTitles demoFire.tasks,
      if (pendingTitles demoFire.tasks).length > 5 then
        "You have pending tasks! Stay focused" ++ "\n…and " ++
          toString ((pendingTitles demoFire.tasks).length - 5) ++ " more"
      else "You have pending tasks! Stay focused") :=
  ⟨by decide, by decide,
    fire_payload_and_message demoFire (by decide) (by decide)⟩

/-- A concrete running state at a full countdown. -/
def demoFull : AppState :=
  ⟨[⟨0, "a", false, 0⟩], REMINDER_SECONDS, true, 1, .missing⟩

/-- A concrete state whose only task is done while the timer is (stalely)
active with an odd countdown. -/
def demoIdleTick : AppState :=
  ⟨[⟨0, "a", true, 0⟩], 42, true, 1, .missing⟩

lemma pendingTitles_isEmpty_false (ts : List Task)
    (hp : has_pending ts = true) : (pendingTitles ts).isEmpty = false := by
  cases h : (pendingTitles ts).isEmpty
  · rfl
  · exact absurd (List.isEmpty_iff.mp h) (pendingTitles_ne_nil ts hp)

lemma fire_reminder_isSome (ts : List Task) (hp : has_pending ts = true) :
    (fire_reminder ts).isSome = true := by
  simp only [fire_reminder, pendingTitles_isEmpty_false ts hp,
    Bool.false_eq_true, if_false]
  rfl

lemma on_tick_decrement (s : AppState) (hp : has_pending s.tasks = true)
    (h1 : 0 < s.seconds_left - 1) :
    on_tick s = ({ s with seconds_left := s.seconds_left - 1 }, none) := by
  simp only [on_tick, hp, Bool.not_true, Bool.false_eq_true, if_false]
  rw [if_neg (by omega)]

lemma on_tick_fire (s : AppState) (hp : has_pending s.tasks = true)
    (h1 : s.seconds_left - 1 ≤ 0) :
    on_tick s =
      ({ s with seconds_left := REMINDER_SECONDS }, fire_reminder s.tasks) := by
  simp only [on_tick, hp, Bool.not_true, Bool.false_eq_true, if_false]
  rw [if_pos h1]

lemma run_ticks_cycle (k : Nat) : ∀ (s : AppState), 1 ≤ k →
    s.seconds_left = (k : Int) → has_pending s.tasks = true →
    run_ticks k s = ({ s with seconds_left := REMINDER_SECONDS }, 1) := by
  induction k with
  | zero => intro s h _ _; exact absurd h (by omega)
  | succ n ih =>
    intro s _ hsl hp
    rcases Nat.eq_zero_or_pos n with hn | hn
    · subst hn
      have hfire := on_tick_fire s hp (by rw [hsl]; norm_num)
      simp only [run_ticks, hfire, fire_reminder_isSome s.tasks hp]
      simp
    · have hdec := on_tick_decrement s hp (by rw [hsl]; push_cast; omega)
      have hrec := ih { s with seconds_left := s.seconds_left - 1 } hn
        (by show s.seconds_left - 1 = (n : Int); rw [hsl]; push_cast; omega) hp
      simp only [run_ticks, hdec, hrec]
      simp

/-- Claim C4: from a running state with a full countdown and at least one
pending task, 300 consecutive ticks produce exactly one fire event and
return `seconds_left` to 300, with the timer still running (the timer never
stops itself merely because it fired). -/
theorem three_hundred_ticks_fire_once (s : AppState)
    (hrun : s.tickActive = true) (hsl : s.seconds_left = REMINDER_SECONDS)
    (hp : has_pending s.tasks = true) :
    (run_ticks 300 s).2 = 1 ∧
    (run_ticks 300 s).1.seconds_left = REMINDER_SECONDS ∧
    (run_ticks 300 s).1.tickActive = true := by
  have h := run_ticks_cycle 300 s (by omega) (by rw [hsl]; decide) hp
  rw [h]
  exact ⟨rfl, rfl, hrun⟩

/-- Witness for claim C4 at a concrete full-countdown state. -/
theorem three_hundred_ticks_fire_once_witness :
    demoFull.tickActive = true ∧ demoFull.seconds_left = REMINDER_SECONDS ∧
    has_pending demoFull.tasks = true ∧
    ((run_ticks 300 demoFull).2 = 1 ∧
     (run_ticks 300 demoFull).1.seconds_left = REMINDER_SECONDS ∧
     (run_ticks 300 demoFull).1.tickActive = true) :=
  ⟨rfl, rfl, by decide,
    three_hundred_ticks_fire_once demoFull rfl rfl (by decide)⟩

/-- Claim C5: a tick that observes zero pending tasks emits no fire event
and does not decrement the countdown: it stops the timer and resets
`seconds_left` to `REMINDER_SECONDS` (the pending check precedes the
decrement on every tick). -/
theorem tick_without_pending_goes_idle (s : AppState)
    (h : pending_count s.tasks = 0) :
    on_tick s =
      ({ s with tickActive := false, seconds_left := REMINDER_SECONDS }, none) := by
  have hp : has_pending s.tasks = false := by
    cases hh : has_pending s.tasks
    · rfl
    · have := (has_pending_iff s.tasks).mp hh
      omega
  simp [on_tick, hp]

/-- Witness for claim C5: a stalely-active timer at 42 seconds whose only
task is done. -/
theorem tick_without_pending_goes_idle_witness :
    pending_count demoIdleTick.tasks = 0 ∧
    on_tick demoIdleTick =
      ({ demoIdleTick with tickActive := false, seconds_left := REMINDER_SECONDS },
        none) :=
  ⟨by decide, tick_without_pending_goes_idle demoIdleTick (by decide)⟩

/-- A concrete state holding two tasks with the same title but distinct
object identities. -/
def demoDup : AppState :=
  ⟨[⟨0, "a", false, 0⟩, ⟨1, "a", false, 0⟩], 7, true, 2, .missing⟩

lemma decodeTask_encodeTask (mlt : Rat) (i : Nat) (t : Task) :
    decodeTask mlt i (encodeTask t) = some ⟨i, t.title, t.done, t.created_at⟩ := by
  rfl

lemma decodeTasksFrom_encode (mlt : Rat) (ts : List Task) : ∀ (i : Nat),
    ∃ us, decodeTasksFrom mlt i (ts.map encodeTask) = some us ∧
      us.map (fun t => (t.title, t.done)) = ts.map (fun t => (t.title, t.done)) := by
  induction ts with
  | nil => exact fun i => ⟨[], rfl, rfl⟩
  | cons t rest ih =>
    intro i
    obtain ⟨us, h1, h2⟩ := ih (i + 1)
    refine ⟨⟨i, t.title, t.done, t.created_at⟩ :: us, ?_, ?_⟩
    · simp only [List.map_cons, decodeTasksFrom, decodeTask_encodeTask, h1]
    · simp [h2]

/-- Claim C6: saving the task list and loading the result back reproduces
the same ordered sequence of `(title, done)` pairs, and every stored record
(its `created_at` timestamp included) deserializes without error. -/
theorem save_load_round_trip (mlt : Rat) (s : AppState) :
    decodeTasks mlt (encodeTasks s.tasks) ≠ none ∧
    (load_tasks mlt (save_tasks s).file).map (fun t => (t.title, t.done)) =
      s.tasks.map (fun t => (t.title, t.done)) := by
  obtain ⟨us, h1, h2⟩ := decodeTasksFrom_encode mlt s.tasks 0
  constructor
  · simp [decodeTasks, encodeTasks, h1]
  · simp [load_tasks, save_tasks, decodeTasks, encodeTasks, h1, h2]

/-- Claim C7: a missing persistence file loads as the empty task list, an
unparseable one loads as the empty task list, and so does any parsed value
on which record construction fails; `load_tasks` is a total function, so no
error is surfaced in any of these cases. -/
theorem load_failure_yields_empty (mlt : Rat) (j : Json)
    (hj : decodeTasks mlt j = none) :
    load_tasks mlt .missing = [] ∧ load_tasks mlt .malformed = [] ∧
    load_tasks mlt (.json j) = [] :=
  ⟨rfl, rfl, by simp [load_tasks, hj]⟩

/-- Witness for claim C7, with a parsed-but-undecodable value (a bare
number, over which the list comprehension raises). -/
theorem load_failure_yields_empty_witness :
    decodeTasks 0 (.num 3) = none ∧
    (load_tasks 0 .missing = [] ∧ load_tasks 0 .malformed = [] ∧
     load_tasks 0 (.json (.num 3)) = []) :=
  ⟨rfl, load_failure_yields_empty 0 (.num 3) rfl⟩

/-- Claim C8: adding a title that strips to the empty string is a complete
no-op — the state (task list, countdown, timer flag, save file) is returned
unchanged, and `add_task` is a total function, so nothing is raised. -/
theorem blank_add_is_noop (mlt now : Rat) (input : String) (s : AppState)
    (h : pyStrip input = "") : add_task mlt now input s = s := by
  simp [add_task, h]

/-- Witness for claim C8: a whitespace-only title at a running state. -/
theorem blank_add_is_noop_witness :
    pyStrip "  " = "" ∧ add_task 0 0 "  " demoRunning = demoRunning :=
  ⟨by decide, blank_add_is_noop 0 0 "  " demoRunning (by decide)⟩

lemma filter_ne_id_eq_eraseIdx : ∀ (l : List Task) (i : Nat) (hi : i < l.length),
    (l.map Task.id).Nodup →
    l.filter (fun t => t.id != (l.get ⟨i, hi⟩).id) = l.eraseIdx i := by
  intro l
  induction l with
  | nil => intro i hi; simp at hi
  | cons a tl ih =>
    intro i hi hnd
    rw [List.map_cons, List.nodup_cons] at hnd
    obtain ⟨ha, htl⟩ := hnd
    cases i with
    | zero =>
      have hg : (a :: tl).get ⟨0, hi⟩ = a := rfl
      rw [hg]
      simp only [List.eraseIdx, List.filter_cons]
      have hpa : (a.id != a.id) = false := by simp
      rw [hpa]
      simp only [Bool.false_eq_true, if_false]
      rw [List.filter_eq_self]
      intro t ht
      simp only [bne_iff_ne, ne_eq]
      intro hidet
      exact ha (hidet ▸ List.mem_map_of_mem Task.id ht)
    | succ n =>
      have hn : n < tl.length := by simpa using hi
      have hget : (a :: tl).get ⟨n + 1, hi⟩ = tl.get ⟨n, hn⟩ := rfl
      rw [hget]
      have hpa : (a.id != (tl.get ⟨n, hn⟩).id) = true := by
        simp only [bne_iff_ne, ne_eq]
        intro he
        exact ha (he ▸ List.mem_map_of_mem Task.id (tl.get_mem n hn))
      simp only [List.eraseIdx, List.filter_cons, hpa, if_true]
      rw [ih n hn htl]

/-- Claim C9: removal selects by object identity, not value equality:
removing the referenced task deletes exactly that element of the list,
leaving every other task — equal-titled duplicates included — unchanged
and in their original relative order. -/
theorem remove_deletes_exactly_referenced (s : AppState) (i : Nat)
    (hi : i < s.tasks.length) (hnd : (s.tasks.map Task.id).Nodup) :
    (remove_task (s.tasks.get ⟨i, hi⟩).id s).tasks = s.tasks.eraseIdx i := by
  simp only [remove_task]
  rw [reset_or_start_tasks]
  exact filter_ne_id_eq_eraseIdx s.tasks i hi hnd

/-- Witness for claim C9: two tasks with the same title and distinct
identities; removing the first leaves the second. -/
theorem remove_deletes_exactly_referenced_witness :
    0 < demoDup.tasks.length ∧ (demoDup.tasks.map Task.id).Nodup ∧
    (remove_task (demoDup.tasks.get ⟨0, by decide⟩).id demoDup).tasks =
      demoDup.tasks.eraseIdx 0 :=
  ⟨by decide, by decide,
    remove_deletes_exactly_referenced demoDup 0 (by decide) (by decide)⟩

lemma add_task_last_created_at (mlt now : Rat) (input : String) (s : AppState)
    (h : pyStrip input ≠ "") :
    ((add_task mlt now input s).tasks.getLast?).map Task.created_at = some mlt := by
  simp only [add_task, if_neg h]
  rw [reset_or_start_tasks]
  show ((s.tasks ++ [Task.mk s.next_id (pyStrip input) false mlt]).getLast?).map
      Task.created_at = some mlt
  simp

/-- Claim C10: every task appended by `add_task` receives the module-load
timestamp as its `created_at` (the dataclass default `time.time()` was
evaluated once, when the class was defined), so two tasks added at
different wall-clock times in the same run carry equal `created_at` values
— values that record the module-load time, not each actual creation
time. -/
theorem created_at_is_module_load_time
    (mlt now1 now2 : Rat) (s1 s2 : AppState) (in1 in2 : String)
    (_hne : now1 ≠ now2)
    (h1 : pyStrip in1 ≠ "") (h2 : pyStrip in2 ≠ "") :
    ((add_task mlt now1 in1 s1).tasks.getLast?).map Task.created_at = some mlt ∧
    ((add_task mlt now2 in2 s2).tasks.getLast?).map Task.created_at = some mlt :=
  ⟨add_task_last_created_at mlt now1 in1 s1 h1,
   add_task_last_created_at mlt now2 in2 s2 h2⟩

/-- Witness for claim C10: two adds at distinct wall-clock times 0 and 1,
module-load time 5; both new tasks carry `created_at = 5`. -/
theorem created_at_is_module_load_time_witness :
    (0 : Rat) ≠ 1 ∧ pyStrip "a" ≠ "" ∧ pyStrip "b" ≠ "" ∧
    (((add_task 5 0 "a" demoState).tasks.getLast?).map Task.created_at = some 5 ∧
     ((add_task 5 1 "b" demoRunning).tasks.getLast?).map Task.created_at = some 5) :=
  ⟨by decide, by decide, by decide,
    created_at_is_module_load_time 5 0 1 demoState demoRunning "a" "b"
      (by decide) (by decide) (by decide)⟩

end TaskTimer
